import Mathlib

/-!
Verification development for the test-automation bridge of a small
interactive application.  The bridge consists of a process-wide command
channel (`channel.rs` / `test_automation.rs`), a non-blocking frame-loop
drain (`bevy_systems.rs` / `main.rs::receive_test_messages`), two network
transports (a WebSocket transport in `test_automation.rs` and a GraphQL
transport in `test_system/graphql`), and a background screenshot waiter
built on the `backoff` crate.

Modelling conventions:
* `f32`/`f64` coordinates are modelled as `Rat`; the program never does
  arithmetic on them (they are only logged), so the numeric type is
  irrelevant to every property below.
* Each `tokio::sync::oneshot` reply slot is modelled by a `Nat` slot id;
  a fulfilment is an explicit `(slot, value)` pair emitted by the drain.
* Durations are in milliseconds (`Rat`) for the backoff waiter and in
  seconds (`Nat`) for the request-handler timeouts.
-/

/-- Model of `bevy::ui::Interaction`: the pointer-interaction state of a UI node. -/
inductive Interaction where
  | Pressed
  | Hovered
  | None
deriving DecidableEq, Repr

/-- One `GameButton` entity as seen by the two systems that matter here:
its `Interaction` component and the Bevy change-detection flag recording
whether the component was written since `handle_button_interaction` last
ran (Bevy marks a component changed on every `Mut` write, even if the
value is unchanged). -/
structure GameButton where
  interaction : Interaction
  changed : Bool
deriving DecidableEq, Repr

/-- The slice of live Bevy world state the bridge reads and writes:
the `GameButton` entities and the number of live `Ball` entities. -/
structure DrainState where
  buttons : List GameButton
  balls : Nat
deriving DecidableEq, Repr

/-- Model of `TestMessage` (`channel.rs` / `test_automation.rs`): the command enum
carried by the crossbeam channel.  The `oneshot::Sender` in each variant
is modelled as a slot id. -/
inductive TestMessage where
  | Hover (x y : Rat) (slot : Nat)
  | Click (x y : Rat) (slot : Nat)
  | Screenshot (path : String) (slot : Nat)
  | QueryComponents (slot : Nat)
deriving DecidableEq, Repr

/-- The reply-slot id carried by a message. -/
def TestMessage.msgSlot : TestMessage → Nat
  | .Hover _ _ s => s
  | .Click _ _ s => s
  | .Screenshot _ s => s
  | .QueryComponents s => s

/-- Is the message a Hover or a Click? -/
def TestMessage.isPointer : TestMessage → Bool
  | .Hover _ _ _ => true
  | .Click _ _ _ => true
  | _ => false

/-- The component-count map built by the `QueryComponents` arm of
`receive_test_messages`: `HashMap` entries `Ball ↦ ball_count`,
`Button ↦ button_count` (listed here in insertion order; consumers never
depend on map order). -/
def componentCountsMap (s : DrainState) : List (String × Nat) :=
  [("Ball", s.balls), ("Button", s.buttons.length)]

/-- Everything the frame-loop drain emits besides the new world state:
boolean fulfilments, count fulfilments, screenshot capture requests
spawned into the render pipeline, and detached waiter threads spawned
(path and slot each waiter owns). -/
structure DrainOut where
  boolReplies : List (Nat × Bool)
  countReplies : List (Nat × List (String × Nat))
  captures : List String
  waiters : List (String × Nat)
deriving DecidableEq, Repr

/-- The empty drain output. -/
def DrainOut.empty : DrainOut := ⟨[], [], [], []⟩

/-- Concatenation of drain outputs (events of a first phase followed by
events of a second). -/
def DrainOut.app (a b : DrainOut) : DrainOut :=
  ⟨a.boolReplies ++ b.boolReplies, a.countReplies ++ b.countReplies,
   a.captures ++ b.captures, a.waiters ++ b.waiters⟩

/-- One arm of the `match msg` in `receive_test_messages`
(`bevy_systems.rs` lines 17-82, identical copy in `main.rs`):
* `Hover`: every `GameButton` interaction is set to `Hovered` (no
  hit-test on x,y), then `response.send(true)`;
* `Click`: every `GameButton` interaction is set to `Pressed`, then
  `response.send(true)`;
* `Screenshot`: spawn a capture request, spawn a waiter thread, no send
  here (the waiter fulfils later);
* `QueryComponents`: send the count map built from the live state. -/
def applyTestMessage (s : DrainState) : TestMessage → DrainState × DrainOut
  | .Hover _ _ slot =>
      ({ s with buttons := s.buttons.map fun _ => ⟨.Hovered, true⟩ },
       ⟨[(slot, true)], [], [], []⟩)
  | .Click _ _ slot =>
      ({ s with buttons := s.buttons.map fun _ => ⟨.Pressed, true⟩ },
       ⟨[(slot, true)], [], [], []⟩)
  | .Screenshot path slot =>
      (s, ⟨[], [], [path], [(path, slot)]⟩)
  | .QueryComponents slot =>
      (s, ⟨[], [(slot, componentCountsMap s)], [], []⟩)

/-- Model of `receive_test_messages`: the per-tick drain.  `try_recv` in a `while`
loop empties the queue front-to-back without ever blocking; each message
is applied immediately.  The queue argument is the FIFO content of the
crossbeam channel at tick time. -/
def receive_test_messages (s : DrainState) : List TestMessage → DrainState × DrainOut
  | [] => (s, DrainOut.empty)
  | m :: rest =>
      let p := applyTestMessage s m
      let q := receive_test_messages p.1 rest
      (q.1, p.2.app q.2)

/-- Model of `handle_button_interaction` (`main.rs` lines 154-189): for every
`GameButton` whose `Interaction` changed since this system last ran and
is now `Pressed`, spawn one `Ball`.  Running the system advances its
change tick, so the changed flags are consumed. -/
def handle_button_interaction (s : DrainState) : DrainState :=
  { buttons := s.buttons.map fun b => { b with changed := false },
    balls := s.balls +
      (s.buttons.filter fun b => b.changed && decide (b.interaction = .Pressed)).length }

/-- One `Update` tick as scheduled in `main.rs` lines 50-58:
`receive_test_messages` first, then `handle_button_interaction` (declared
`.after(receive_test_messages)`).  Returns the end-of-tick state and the
drain events. -/
def updateTick (s : DrainState) (queue : List TestMessage) : DrainState × DrainOut :=
  let d := receive_test_messages s queue
  (handle_button_interaction d.1, d.2)

-- Basic drain lemmas shared by several claims.

theorem receive_test_messages_nil (s : DrainState) :
    receive_test_messages s [] = (s, DrainOut.empty) := rfl

theorem receive_test_messages_cons (s : DrainState) (m : TestMessage)
    (rest : List TestMessage) :
    receive_test_messages s (m :: rest) =
      ((receive_test_messages (applyTestMessage s m).1 rest).1,
       (applyTestMessage s m).2.app
         (receive_test_messages (applyTestMessage s m).1 rest).2) := rfl

/-- A pointer (Hover/Click) message emits exactly one boolean fulfilment,
`(slot, true)`, whatever the state. -/
theorem applyTestMessage_pointer_reply (s : DrainState) (m : TestMessage)
    (h : m.isPointer = true) :
    (applyTestMessage s m).2.boolReplies = [(m.msgSlot, true)] := by
  cases m <;> simp_all [TestMessage.isPointer, applyTestMessage, TestMessage.msgSlot]

/-- Helper: over a queue of pointer messages only, the drain emits the
boolean fulfilments `(slot, true)` of all messages, in queue order. -/
theorem receive_pointer_boolReplies (s : DrainState) (q : List TestMessage)
    (h : ∀ m ∈ q, m.isPointer = true) :
    (receive_test_messages s q).2.boolReplies = q.map fun m => (m.msgSlot, true) := by
  induction q generalizing s with
  | nil => rfl
  | cons m rest ih =>
      have hm : m.isPointer = true := h m (List.mem_cons_self m rest)
      have hrest : ∀ x ∈ rest, x.isPointer = true := fun x hx => h x (List.mem_cons_of_mem m hx)
      rw [receive_test_messages_cons]
      simp only [DrainOut.app, List.map_cons]
      rw [applyTestMessage_pointer_reply s m hm, ih _ hrest]
      rfl

-- Transport-side embedding (`test_automation.rs` and `test_system/graphql`).

/-- Model of `serde_json::Value`.  Numbers are modelled as `Rat`; the program only
extracts them (`as_f64`) and logs them, never computes with them. -/
inductive Json where
  | null
  | bool (b : Bool)
  | num (q : Rat)
  | str (s : String)
  | arr (elems : List Json)
  | obj (fields : List (String × Json))

/-- Model of `Value::get(key)`: field lookup on an object, `None` otherwise
(duplicate keys are collapsed by serde at parse time, so first-match
lookup is exact). -/
def Json.get : Json → String → Option Json
  | .obj fields, key => fields.lookup key
  | _, _ => none

/-- Model of `Value::as_f64`: a number or nothing. -/
def Json.as_f64 : Json → Option Rat
  | .num q => some q
  | _ => none

/-- Model of `Value::as_str`: a string or nothing. -/
def Json.as_str : Json → Option String
  | .str s => some s
  | _ => none

/-- Model of `TestCommand` (`test_automation.rs` lines 53-58): the request
envelope of the WebSocket transport. -/
structure TestCommand where
  action : String
  selector : Option String
  params : Option Json

/-- Model of `TestResponse` (`test_automation.rs` lines 60-65). -/
structure TestResponse where
  success : Bool
  message : String
  data : Option Json

/-- How a `oneshot::Receiver` behaves on the wall clock (seconds):
the drain fulfils it at time `t`, or the sender is dropped unfulfilled at
time `t`, or nothing ever happens. -/
inductive RxBehavior (α : Type) where
  | arrives (t : Nat) (a : α)
  | closes (t : Nat)
  | silent

/-- Outcome of `tokio::time::timeout(budget, rx)`. -/
inductive Rx (α : Type) where
  | value (a : α)
  | closed
  | timedOut

/-- Model of `tokio::time::timeout` over a receiver with the given behavior:
events at or before the budget are delivered, later or absent events
become `timedOut`. -/
def tokioTimeout (budget : Nat) : RxBehavior α → Rx α
  | .arrives t a => if t ≤ budget then .value a else .timedOut
  | .closes t => if t ≤ budget then .closed else .timedOut
  | .silent => .timedOut

/-- The parts of a request run that are decided outside the handler:
whether the channel still has a live consumer (`send` succeeds), and how
each reply slot behaves. -/
structure Oracle where
  sendOk : Bool
  boolBeh : RxBehavior Bool
  countsBeh : RxBehavior (List (String × Nat))

def COMMAND_TIMEOUT_SECS : Nat := 2

def SCREENSHOT_TIMEOUT_SECS : Nat := 5

/-- Model of `error_response` (`test_automation.rs` lines 292-298). -/
def error_response (message : String) : TestResponse :=
  ⟨false, message, none⟩

/-- Model of `wait_for_bool_response` (`test_automation.rs` lines 263-272):
tokio timeout around the oneshot receiver; value, closed-channel error,
or timeout error. -/
def wait_for_bool_response (beh : RxBehavior Bool) (timeout_secs : Nat) :
    Except String Bool :=
  match tokioTimeout timeout_secs beh with
  | .value b => .ok b
  | .closed => .error "接收确认失败"
  | .timedOut => .error "超时"

/-- Model of `wait_for_response` (`test_automation.rs` lines 275-289). -/
def wait_for_response (beh : RxBehavior Bool) (timeout_secs : Nat)
    (action_name : String) : TestResponse :=
  match wait_for_bool_response beh timeout_secs with
  | .ok true => ⟨true, action_name ++ "完成", none⟩
  | .ok false => error_response (action_name ++ "失败")
  | .error msg => error_response (action_name ++ ": " ++ msg)

/-- Model of `handle_coordinate_command` (`test_automation.rs` lines 165-206):
validate params, extract x and y, send, await with the 2-second budget.
The first component of the result is the list of messages actually
enqueued on the command channel. -/
def handle_coordinate_command (params : Option Json)
    (create_message : Rat → Rat → Nat → TestMessage)
    (o : Oracle) (slot : Nat) (action_name : String) :
    List TestMessage × TestResponse :=
  match params with
  | none => ([], ⟨false, "缺少参数", none⟩)
  | some p =>
    match (p.get "x").bind Json.as_f64, (p.get "y").bind Json.as_f64 with
    | some x, some y =>
        if o.sendOk then
          ([create_message x y slot],
           wait_for_response o.boolBeh COMMAND_TIMEOUT_SECS action_name)
        else ([], ⟨false, "发送消息失败: 通道已关闭", none⟩)
    | _, _ => ([], ⟨false, "缺少 x, y 坐标", none⟩)

/-- Model of `handle_screenshot_command` (`test_automation.rs` lines 209-241):
validate path, send, await with the 5-second budget. -/
def handle_screenshot_command (params : Option Json) (o : Oracle)
    (slot : Nat) : List TestMessage × TestResponse :=
  match params with
  | none => ([], error_response "缺少参数")
  | some p =>
    match (p.get "path").bind Json.as_str with
    | none => ([], error_response "缺少 path 参数")
    | some path =>
        if o.sendOk then
          ([.Screenshot path slot],
           match wait_for_bool_response o.boolBeh SCREENSHOT_TIMEOUT_SECS with
           | .ok true => ⟨true, "截图完成: " ++ path, none⟩
           | .ok false => error_response ("截图失败: " ++ path)
           | .error msg => error_response msg)
        else ([], error_response "发送消息失败: 通道已关闭")

/-- Model of `handle_query_components` (`test_automation.rs` lines 244-260). -/
def handle_query_components (o : Oracle) (slot : Nat) :
    List TestMessage × TestResponse :=
  if o.sendOk then
    ([.QueryComponents slot],
     match tokioTimeout COMMAND_TIMEOUT_SECS o.countsBeh with
     | .value counts =>
         ⟨true, "组件查询完成",
          some (.obj (counts.map fun p => (p.1, .num p.2)))⟩
     | .closed => error_response "接收响应失败"
     | .timedOut => error_response "查询超时")
  else ([], error_response "发送查询失败: 通道已关闭")

/-- Model of `handle_command` (`test_automation.rs` lines 132-162): dispatch on
the `action` string; anything unrecognized is an immediate failure that
never touches the channel. -/
def handle_command (cmd : TestCommand) (o : Oracle) (slot : Nat) :
    List TestMessage × TestResponse :=
  match cmd.action with
  | "hover" =>
      handle_coordinate_command cmd.params (fun x y s => .Hover x y s) o slot "悬停"
  | "click" =>
      handle_coordinate_command cmd.params (fun x y s => .Click x y s) o slot "点击"
  | "screenshot" => handle_screenshot_command cmd.params o slot
  | "query_components" => handle_query_components o slot
  | other => ([], ⟨false, "未知命令: " ++ other, none⟩)

/-- One iteration of the `while let Some(msg) = socket.recv()` loop in
`handle_socket` (`test_automation.rs` lines 112-130).  The frame is the
result of `serde_json::from_str::<TestCommand>` on the received text:
`none` models an unparsable payload.  On parse failure the loop body has
no else branch — no command is handled and no response frame is sent. -/
def handle_socket_frame (frame : Option TestCommand) (o : Oracle)
    (slot : Nat) : List TestMessage × Option TestResponse :=
  match frame with
  | some cmd =>
      let r := handle_command cmd o slot
      (r.1, some r.2)
  | none => ([], none)

/-- The whole `handle_socket` loop over the frames received before the
peer closes: each frame is handled in turn and the loop always continues
to the next frame, whatever the previous outcome was. -/
def handle_socket : List (Option TestCommand × Oracle) →
    List (List TestMessage × Option TestResponse)
  | [] => []
  | (f, o) :: rest => handle_socket_frame f o 0 :: handle_socket rest

-- GraphQL transport (`test_system/graphql`).

/-- Model of `CommandResult` (`graphql/types.rs`). -/
structure CommandResult where
  success : Bool
  message : String
deriving DecidableEq, Repr

/-- Model of `ComponentCount` (`graphql/types.rs`): the count field is an `i32`. -/
structure ComponentCount where
  name : String
  count : Int
deriving DecidableEq, Repr

/-- Rust `usize as i32`: truncating twos-complement conversion. -/
def toI32 (n : Nat) : Int :=
  if (n : Int) % 2 ^ 32 < 2 ^ 31 then (n : Int) % 2 ^ 32
  else (n : Int) % 2 ^ 32 - 2 ^ 32

/-- The lexicographic string comparison `str::cmp` performs, expressed on
the character lists (the names compared in this program are ASCII, where
byte order and character order agree): is the first at most the second? -/
def charListLe : List Char → List Char → Bool
  | [], _ => true
  | _ :: _, [] => false
  | a :: as, b :: bs =>
      if a < b then true else if b < a then false else charListLe as bs

/-- The comparator `|a, b| a.name.cmp(&b.name)` as a boolean order. -/
def nameLe (a c : ComponentCount) : Bool :=
  charListLe a.name.data c.name.data

/-- Insertion step of the comparison sort `sort_by(|a, b| a.name.cmp(&b.name))`
(ascending by name; all names occurring in this program are distinct, so
stability is irrelevant to the result). -/
def insertByName (c : ComponentCount) : List ComponentCount → List ComponentCount
  | [] => [c]
  | d :: ds => if nameLe c d then c :: d :: ds else d :: insertByName c ds

/-- Model of `Vec::sort_by` on `ComponentCount` by ascending name. -/
def sortByName : List ComponentCount → List ComponentCount
  | [] => []
  | c :: cs => insertByName c (sortByName cs)

/-- Model of `wait_bool` (`graphql/mutations.rs` lines 65-83): tokio timeout around
the oneshot receiver; a timeout or closed channel becomes a GraphQL error
with a distinct message, a delivered boolean becomes a `CommandResult`. -/
def wait_bool (beh : RxBehavior Bool) (timeout_secs : Nat)
    (action_name : String) : Except String CommandResult :=
  match tokioTimeout timeout_secs beh with
  | .timedOut => .error (action_name ++ ": 超时")
  | .closed => .error (action_name ++ ": 接收确认失败")
  | .value b =>
      .ok ⟨b, if b then action_name ++ "完成" else action_name ++ "失败"⟩

/-- Mutation `hover` (`graphql/mutations.rs` lines 16-25). -/
def MutationRoot.hover (x y : Rat) (o : Oracle) (slot : Nat) :
    List TestMessage × Except String CommandResult :=
  if o.sendOk then
    ([.Hover x y slot], wait_bool o.boolBeh COMMAND_TIMEOUT_SECS "悬停")
  else ([], .error "发送消息失败: 通道已关闭")

/-- Mutation `click` (`graphql/mutations.rs` lines 27-36). -/
def MutationRoot.click (x y : Rat) (o : Oracle) (slot : Nat) :
    List TestMessage × Except String CommandResult :=
  if o.sendOk then
    ([.Click x y slot], wait_bool o.boolBeh COMMAND_TIMEOUT_SECS "点击")
  else ([], .error "发送消息失败: 通道已关闭")

/-- Mutation `screenshot` (`graphql/mutations.rs` lines 38-62): awaits
with the 5-second screenshot budget. -/
def MutationRoot.screenshot (path : String) (o : Oracle) (slot : Nat) :
    List TestMessage × Except String CommandResult :=
  if o.sendOk then
    ([.Screenshot path slot],
     match tokioTimeout SCREENSHOT_TIMEOUT_SECS o.boolBeh with
     | .timedOut => .error "截图超时"
     | .closed => .error "接收确认失败"
     | .value b =>
         .ok ⟨b, if b then "截图完成: " ++ path else "截图失败: " ++ path⟩)
  else ([], .error "发送消息失败: 通道已关闭")

/-- Query `component_counts` (`graphql/queries.rs` lines 19-42): send a
`QueryComponents` command, await with the 2-second budget, cast each
count to `i32` and sort the result ascending by name. -/
def QueryRoot.component_counts (o : Oracle) (slot : Nat) :
    List TestMessage × Except String (List ComponentCount) :=
  if o.sendOk then
    ([.QueryComponents slot],
     match tokioTimeout COMMAND_TIMEOUT_SECS o.countsBeh with
     | .timedOut => .error "查询超时"
     | .closed => .error "接收响应失败"
     | .value counts =>
         .ok (sortByName (counts.map fun p => ⟨p.1, toI32 p.2⟩)))
  else ([], .error "发送查询失败: 通道已关闭")

-- Server startup and the channel singleton (`test_system/server.rs`,
-- `test_system/channel.rs`; `test_automation.rs` has the same shape).

/-- Observable process state around the `TEST_COMMAND_CHANNEL` OnceLock.
Channels are numbered in creation order; `singleton` is the OnceLock
content (the channel the frame loop drains); `liveReceivers` lists the
channels whose `Receiver` half is still alive — a crossbeam `send`
succeeds exactly when the receiver is alive. -/
structure ProcState where
  nextChan : Nat
  singleton : Option Nat
  liveReceivers : List Nat
deriving DecidableEq, Repr

/-- The process before any server start: no channel exists. -/
def procInit : ProcState := ⟨0, none, []⟩

/-- What one `start_test_server` call produces: the new process state and
the sender handle (channel id) baked into the schema handed to every
request handler of this server instance. -/
structure StartResult where
  state : ProcState
  schemaSender : Nat
deriving DecidableEq, Repr

/-- Model of `start_test_server` (`test_system/server.rs` lines 16-47): create a
fresh unbounded channel, then `let _ = TEST_COMMAND_CHANNEL.set(...)` —
when the OnceLock is already set, the fresh `TestChannel` value is
returned in the discarded `Err` and dropped, dropping the fresh
`Receiver` with it — and finally `build_schema(sender)` with the FRESH
sender in either case. -/
def start_test_server (s : ProcState) : StartResult :=
  let fresh := s.nextChan
  match s.singleton with
  | none => ⟨⟨fresh + 1, some fresh, s.liveReceivers ++ [fresh]⟩, fresh⟩
  | some c => ⟨⟨fresh + 1, some c, s.liveReceivers⟩, fresh⟩

/-- Model of `Sender::send` on channel `ch` succeeds iff its receiver is alive. -/
def publishOk (s : ProcState) (ch : Nat) : Bool :=
  s.liveReceivers.contains ch

-- Screenshot waiter (`bevy_systems.rs` lines 44-63 and the `backoff`
-- crate it calls with initial interval 50ms, max interval 500ms, max
-- elapsed time 5s; multiplier and randomization factor are the crate
-- defaults 1.5 and 0.5).

def INITIAL_INTERVAL_MS : Rat := 50

def MAX_INTERVAL_MS : Rat := 500

def MAX_ELAPSED_MS : Rat := 5000

def MULTIPLIER : Rat := 3 / 2

def RANDOMIZATION_FACTOR : Rat := 1 / 2

/-- Backoff state: the current nominal interval and the wall-clock time
elapsed since the retry started (milliseconds). -/
structure Backoff where
  currentInterval : Rat
  elapsed : Rat
deriving DecidableEq, Repr

def backoffInit : Backoff := ⟨INITIAL_INTERVAL_MS, 0⟩

/-- The jittered sleep drawn from the current interval: uniform over
`[current·(1-rf), current·(1+rf)]`, parameterized by the random draw
`r ∈ [0,1]`. -/
def jitteredInterval (r current : Rat) : Rat :=
  (current - RANDOMIZATION_FACTOR * current) +
    r * (2 * (RANDOMIZATION_FACTOR * current))

/-- Model of `increment_current_interval`: multiply by the 1.5 multiplier, capped
at the max interval. -/
def incrementInterval (current : Rat) : Rat :=
  if current ≥ MAX_INTERVAL_MS / MULTIPLIER then MAX_INTERVAL_MS
  else current * MULTIPLIER

/-- Model of `ExponentialBackoff::next_backoff`: once elapsed time exceeds the 5s
budget, give up (`none`); otherwise return the jittered sleep and the
advanced current interval. -/
def nextBackoff (r : Rat) (b : Backoff) : Option (Rat × Rat) :=
  if b.elapsed > MAX_ELAPSED_MS then none
  else some (jitteredInterval r b.currentInterval,
             incrementInterval b.currentInterval)

/-- Outcome of the retry loop, counting the polls performed. -/
inductive RetryResult where
  | ok (polls : Nat)
  | gaveUp (polls : Nat)
  | outOfFuel
deriving DecidableEq, Repr

def RetryResult.isOk : RetryResult → Bool
  | .ok _ => true
  | _ => false

/-- Model of `backoff::retry(config, op)` where `op` polls for file existence:
poll first; on success stop; otherwise take the next backoff interval,
sleep it (advancing the elapsed clock by the sleep) and retry, or give up
when `next_backoff` says the budget is spent.  `fileAt n` is the file
existence at the n-th poll, `r n` the n-th jitter draw.  The fuel makes
the recursion structural; `screenshot_waiter_contract` shows fuel 203 is
never exhausted. -/
def retryGo (r : Nat → Rat) (fileAt : Nat → Bool) :
    Nat → Backoff → Nat → RetryResult
  | 0, _, _ => .outOfFuel
  | fuel + 1, b, n =>
      if fileAt n then .ok (n + 1)
      else
        match nextBackoff (r n) b with
        | none => .gaveUp (n + 1)
        | some (interval, nextCurrent) =>
            retryGo r fileAt fuel ⟨nextCurrent, b.elapsed + interval⟩ (n + 1)

/-- The body of the detached waiter thread (`bevy_systems.rs` lines
44-63): run the retry loop from the initial backoff state, then perform
its single `response.send(result.is_ok())`.  The result is the list of
fulfilments the thread performs on the screenshot reply slot. -/
def screenshotWaiterSends (r : Nat → Rat) (fileAt : Nat → Bool)
    (slot : Nat) : List (Nat × Bool) :=
  [(slot, (retryGo r fileAt 203 backoffInit 0).isOk)]

/-- The nominal (unjittered) current-interval sequence of the configured
backoff: 50ms advanced by `increment_current_interval` each sleep. -/
def backoffCurrentSeq : Nat → Rat
  | 0 => INITIAL_INTERVAL_MS
  | k + 1 => incrementInterval (backoffCurrentSeq k)

-- Shared sample values and string helpers.

/-- A sample world state with two buttons and three balls. -/
def sampleState : DrainState := ⟨[⟨.None, false⟩, ⟨.Hovered, true⟩], 3⟩

/-- A sample world state with exactly one button, as `setup` spawns. -/
def oneButton : DrainState := ⟨[⟨.None, false⟩], 0⟩

/-- An oracle with a live channel and reply slots that never resolve. -/
def oracle0 : Oracle := ⟨true, .silent, .silent⟩

theorem append_ne_of_length_ne (a b c : String) (h : b.length ≠ c.length) :
    a ++ b ≠ a ++ c := by
  intro he
  have hl := congrArg String.length he
  rw [String.length_append, String.length_append] at hl
  omega

theorem append_ne_empty_of_length_pos (a b : String) (h : 0 < a.length) :
    a ++ b ≠ "" := by
  intro he
  have hl := congrArg String.length he
  rw [String.length_append] at hl
  have h0 : ("" : String).length = 0 := rfl
  omega

/-- Claim C1: every published Hover/Click command in the queue is
dequeued and applied by one invocation of the frame-loop drain, in
publish (FIFO) order, each reply slot fulfilled exactly once (the emitted
fulfilment list has exactly one entry per command, positionally), and the
drain of an empty queue returns at once with no effect. -/
theorem drain_applies_all_pointer_commands_in_order (s : DrainState)
    (q : List TestMessage) (h : ∀ m ∈ q, m.isPointer = true) :
    (receive_test_messages s q).2.boolReplies =
      q.map (fun m => (m.msgSlot, true)) ∧
    receive_test_messages s [] = (s, DrainOut.empty) :=
  ⟨receive_pointer_boolReplies s q h, rfl⟩

theorem drain_applies_all_pointer_commands_in_order_witness :
    (receive_test_messages sampleState
        [.Hover 1 2 10, .Click 3 4 11, .Hover 5 6 12]).2.boolReplies =
      [(10, true), (11, true), (12, true)] ∧
    receive_test_messages sampleState [] = (sampleState, DrainOut.empty) := by
  have h := drain_applies_all_pointer_commands_in_order sampleState
      [.Hover 1 2 10, .Click 3 4 11, .Hover 5 6 12] (by decide)
  exact ⟨h.1, h.2⟩

/-- Claim C7: a WebSocket request whose action is none of hover, click,
screenshot, query_components yields a failure response naming the
unknown action, with a non-empty message, and publishes nothing. -/
theorem unknown_action_rejected_without_publish (cmd : TestCommand)
    (o : Oracle) (slot : Nat)
    (h : cmd.action ≠ "hover" ∧ cmd.action ≠ "click" ∧
         cmd.action ≠ "screenshot" ∧ cmd.action ≠ "query_components") :
    handle_command cmd o slot = ([], ⟨false, "未知命令: " ++ cmd.action, none⟩) ∧
    ("未知命令: " ++ cmd.action) ≠ "" := by
  obtain ⟨h1, h2, h3, h4⟩ := h
  constructor
  · unfold handle_command
    split <;> simp_all
  · exact append_ne_empty_of_length_pos _ _ (by decide)

theorem unknown_action_rejected_without_publish_witness :
    handle_command ⟨"drag", none, none⟩ oracle0 0 =
      ([], ⟨false, "未知命令: drag", none⟩) ∧
    ("未知命令: drag" : String) ≠ "" := by
  have h := unknown_action_rejected_without_publish ⟨"drag", none, none⟩
      oracle0 0 ⟨by decide, by decide, by decide, by decide⟩
  exact ⟨h.1, h.2⟩

/-- Claim C8: applying Hover (resp. Click) is independent of the supplied
coordinates — any two coordinate pairs produce identical resulting state
and identical fulfilments — and it sets the pointer state of every
matching control (all buttons end Hovered resp. Pressed, none skipped). -/
theorem pointer_commands_ignore_coordinates (s : DrainState)
    (x1 y1 x2 y2 : Rat) (slot : Nat) :
    applyTestMessage s (.Hover x1 y1 slot) = applyTestMessage s (.Hover x2 y2 slot) ∧
    applyTestMessage s (.Click x1 y1 slot) = applyTestMessage s (.Click x2 y2 slot) ∧
    (∀ b ∈ (applyTestMessage s (.Hover x1 y1 slot)).1.buttons,
        b = ⟨.Hovered, true⟩) ∧
    (∀ b ∈ (applyTestMessage s (.Click x1 y1 slot)).1.buttons,
        b = ⟨.Pressed, true⟩) ∧
    (applyTestMessage s (.Hover x1 y1 slot)).1.buttons.length = s.buttons.length ∧
    (applyTestMessage s (.Click x1 y1 slot)).1.buttons.length = s.buttons.length := by
  refine ⟨rfl, rfl, ?_, ?_, ?_, ?_⟩ <;> simp [applyTestMessage]

theorem pointer_commands_ignore_coordinates_witness :
    applyTestMessage sampleState (.Hover 1 2 0) =
      applyTestMessage sampleState (.Hover 55 77 0) :=
  (pointer_commands_ignore_coordinates sampleState 1 2 55 77 0).1

/-- Claim C10: the drain fulfils every Hover and Click reply slot with
`true` unconditionally — also when zero matching controls exist — so a
well-formed hover or click drained before its timeout always yields a
success response with the action-completed message, whether or not any
control state changed. -/
theorem pointer_replies_unconditionally_true (s : DrainState) (x y : Rat)
    (slot t : Nat) (name : String) (ht : t ≤ COMMAND_TIMEOUT_SECS) :
    (applyTestMessage { s with buttons := [] } (.Hover x y slot)).2.boolReplies =
      [(slot, true)] ∧
    (applyTestMessage { s with buttons := [] } (.Click x y slot)).2.boolReplies =
      [(slot, true)] ∧
    (applyTestMessage s (.Hover x y slot)).2.boolReplies = [(slot, true)] ∧
    (applyTestMessage s (.Click x y slot)).2.boolReplies = [(slot, true)] ∧
    wait_for_response (.arrives t true) COMMAND_TIMEOUT_SECS name =
      ⟨true, name ++ "完成", none⟩ := by
  refine ⟨rfl, rfl, rfl, rfl, ?_⟩
  simp [wait_for_response, wait_for_bool_response, tokioTimeout, ht]

theorem pointer_replies_unconditionally_true_witness :
    (1 : Nat) ≤ COMMAND_TIMEOUT_SECS ∧
    wait_for_response (.arrives 1 true) COMMAND_TIMEOUT_SECS "点击" =
      ⟨true, "点击完成", none⟩ := by
  have h := pointer_replies_unconditionally_true sampleState 9 9 7 1 "点击" (by decide)
  exact ⟨by decide, h.2.2.2.2⟩

-- C2: malformed requests on the WebSocket transport.

/-- Params of a hover/click request from which x or y cannot be
extracted: absent params, or a payload where `get` plus `as_f64` fails
for either coordinate. -/
def coordParamsMalformed (params : Option Json) : Prop :=
  match params with
  | none => True
  | some p => (p.get "x").bind Json.as_f64 = none ∨
              (p.get "y").bind Json.as_f64 = none

/-- Params of a screenshot request from which the path cannot be
extracted. -/
def pathParamsMalformed (params : Option Json) : Prop :=
  match params with
  | none => True
  | some p => (p.get "path").bind Json.as_str = none

theorem handle_coordinate_command_malformed (params : Option Json)
    (f : Rat → Rat → Nat → TestMessage) (o : Oracle) (slot : Nat)
    (name : String) (h : coordParamsMalformed params) :
    (handle_coordinate_command params f o slot name).1 = [] ∧
    (handle_coordinate_command params f o slot name).2.success = false ∧
    (handle_coordinate_command params f o slot name).2.message ≠ "" := by
  cases params with
  | none =>
      exact ⟨rfl, rfl, by show ("缺少参数" : String) ≠ ""; decide⟩
  | some p =>
      simp only [coordParamsMalformed] at h
      simp only [handle_coordinate_command]
      split
      · rcases h with h | h <;> simp_all
      · exact ⟨rfl, rfl, by show ("缺少 x, y 坐标" : String) ≠ ""; decide⟩

theorem handle_screenshot_command_malformed (params : Option Json)
    (o : Oracle) (slot : Nat) (h : pathParamsMalformed params) :
    (handle_screenshot_command params o slot).1 = [] ∧
    (handle_screenshot_command params o slot).2.success = false ∧
    (handle_screenshot_command params o slot).2.message ≠ "" := by
  cases params with
  | none =>
      exact ⟨rfl, rfl, by show ("缺少参数" : String) ≠ ""; decide⟩
  | some p =>
      simp only [pathParamsMalformed] at h
      simp only [handle_screenshot_command]
      split
      · exact ⟨rfl, rfl, by show ("缺少 path 参数" : String) ≠ ""; decide⟩
      · simp_all

/-- Claim C2 counterexample: an unparsable payload produces NO response
at all — `handle_socket` only acts on frames that parse, so the loop
iteration sends nothing back (and enqueues nothing), contradicting the
claimed immediate failure response. -/
theorem unparsable_payload_gets_no_response :
    handle_socket_frame none oracle0 0 = ([], none) := rfl

/-- Claim C2 as amended: an unparsable payload enqueues no command and
is answered with NO response frame at all, while a parsable envelope
whose params are missing or lack the required fields (x/y for
hover/click, path for screenshot) enqueues no command and yields an
immediate response with success false and a non-empty message. -/
theorem malformed_request_handling (cmd : TestCommand) (o : Oracle)
    (slot : Nat) :
    handle_socket_frame none o slot = ([], none) ∧
    (cmd.action = "hover" → coordParamsMalformed cmd.params →
      (handle_command cmd o slot).1 = [] ∧
      (handle_command cmd o slot).2.success = false ∧
      (handle_command cmd o slot).2.message ≠ "") ∧
    (cmd.action = "click" → coordParamsMalformed cmd.params →
      (handle_command cmd o slot).1 = [] ∧
      (handle_command cmd o slot).2.success = false ∧
      (handle_command cmd o slot).2.message ≠ "") ∧
    (cmd.action = "screenshot" → pathParamsMalformed cmd.params →
      (handle_command cmd o slot).1 = [] ∧
      (handle_command cmd o slot).2.success = false ∧
      (handle_command cmd o slot).2.message ≠ "") := by
  obtain ⟨act, sel, par⟩ := cmd
  refine ⟨rfl, ?_, ?_, ?_⟩ <;> intro ha hm <;> subst ha
  · exact handle_coordinate_command_malformed par _ o slot "悬停" hm
  · exact handle_coordinate_command_malformed par _ o slot "点击" hm
  · exact handle_screenshot_command_malformed par o slot hm

theorem malformed_request_handling_witness :
    handle_socket_frame none oracle0 1 = ([], none) ∧
    (handle_command ⟨"hover", none, some (.obj [("x", .num 4)])⟩ oracle0 1).1 = [] ∧
    (handle_command ⟨"hover", none, some (.obj [("x", .num 4)])⟩ oracle0 1).2.success = false := by
  have h := malformed_request_handling
      ⟨"hover", none, some (.obj [("x", .num 4)])⟩ oracle0 1
  have hm : coordParamsMalformed (some (.obj [("x", .num 4)])) := by
    right
    rfl
  exact ⟨h.1, (h.2.1 rfl hm).1, (h.2.1 rfl hm).2.1⟩

-- C3: the channel singleton across repeated server starts.

/-- Claim C3 counterexample: after a first start (which creates channel 0
and installs it in the OnceLock), a second `start_test_server` leaves the
singleton at channel 0 but builds its handler schema over the fresh
channel 1 — the producer its handlers publish into is NOT the channel
the frame loop drains. -/
theorem second_start_uses_fresh_channel :
    (start_test_server (start_test_server procInit).state).state.singleton =
      some 0 ∧
    (start_test_server (start_test_server procInit).state).schemaSender = 1 ∧
    (start_test_server (start_test_server procInit).state).schemaSender ≠ 0 := by
  decide

/-- Claim C3 as amended: the OnceLock set is idempotent — a second start
leaves the first channel installed, and that is still the channel the
frame loop drains — but the second start does NOT reuse it for its own
request handlers: they are built over a fresh channel whose receiver half
was dropped with the discarded `set` result, so every publish into the
second channel fails (no second channel carries traffic, and the second
server instance cannot reach the frame loop at all). -/
theorem start_test_server_singleton_behavior (s : ProcState) (c : Nat)
    (hset : s.singleton = some c)
    (hfresh : ∀ x ∈ s.liveReceivers, x < s.nextChan) :
    (start_test_server s).state.singleton = some c ∧
    (start_test_server s).schemaSender = s.nextChan ∧
    (start_test_server s).state.liveReceivers = s.liveReceivers ∧
    publishOk (start_test_server s).state (start_test_server s).schemaSender =
      false ∧
    (start_test_server procInit).schemaSender = 0 ∧
    (start_test_server procInit).state.singleton = some 0 := by
  obtain ⟨nc, sg, lr⟩ := s
  simp only at hset
  subst hset
  have hmem : nc ∉ lr := fun hmem => lt_irrefl nc (hfresh nc hmem)
  refine ⟨rfl, rfl, rfl, ?_, rfl, rfl⟩
  simp only [start_test_server, publishOk]
  simpa using hmem

theorem start_test_server_singleton_behavior_witness :
    (start_test_server ⟨1, some 0, [0]⟩).state.singleton = some 0 ∧
    publishOk (start_test_server ⟨1, some 0, [0]⟩).state
      (start_test_server ⟨1, some 0, [0]⟩).schemaSender = false := by
  have h := start_test_server_singleton_behavior ⟨1, some 0, [0]⟩ 0 rfl (by decide)
  exact ⟨h.1, h.2.2.2.1⟩

-- C4: what one click actually spawns.

theorem applyTestMessage_preserves_balls (s : DrainState) (m : TestMessage) :
    (applyTestMessage s m).1.balls = s.balls := by
  cases m <;> rfl

theorem applyTestMessage_preserves_button_count (s : DrainState)
    (m : TestMessage) :
    (applyTestMessage s m).1.buttons.length = s.buttons.length := by
  cases m <;> simp [applyTestMessage]

theorem receive_preserves_balls (s : DrainState) (q : List TestMessage) :
    (receive_test_messages s q).1.balls = s.balls := by
  induction q generalizing s with
  | nil => rfl
  | cons m rest ih =>
      rw [receive_test_messages_cons]
      rw [ih]
      exact applyTestMessage_preserves_balls s m

theorem receive_preserves_button_count (s : DrainState)
    (q : List TestMessage) :
    (receive_test_messages s q).1.buttons.length = s.buttons.length := by
  induction q generalizing s with
  | nil => rfl
  | cons m rest ih =>
      rw [receive_test_messages_cons]
      rw [ih]
      exact applyTestMessage_preserves_button_count s m

theorem receive_append_state (s : DrainState) (q1 q2 : List TestMessage) :
    (receive_test_messages s (q1 ++ q2)).1 =
      (receive_test_messages (receive_test_messages s q1).1 q2).1 := by
  induction q1 generalizing s with
  | nil => rfl
  | cons m rest ih =>
      rw [List.cons_append, receive_test_messages_cons,
          receive_test_messages_cons]
      exact ih (applyTestMessage s m).1

/-- Claim C4 counterexample: with exactly one button and no balls, a
drain that applies a Click (at 400,300) followed by a Hover leaves the
ball count unchanged at 0 — the click is applied, yet the subsequent
count is not one greater, because `handle_button_interaction` runs once
per frame on `Changed<Interaction>` and by then the button reads
`Hovered`, not `Pressed`. -/
theorem click_then_hover_spawns_no_ball :
    (updateTick oneButton [.Click 400 300 0, .Hover 10 10 1]).1.balls = 0 ∧
    oneButton.balls = 0 ∧ oneButton.buttons.length = 1 := by
  decide

/-- Claim C4 as amended: with exactly one matching control present, a
drain call whose LAST drained command is a Click increases the tracked
Ball count by exactly one — regardless of the click coordinates and of
any commands drained earlier in the same call — and a `query_components`
drained on the following tick reports the incremented count.  (One ball
is spawned per frame whose final interaction write is a press, not one
per Click command; a Click whose press is overwritten later in the same
drain spawns nothing, as the counterexample shows.) -/
theorem drain_ending_in_click_spawns_one_ball (s : DrainState)
    (q : List TestMessage) (x y : Rat) (slot qslot : Nat)
    (hb : s.buttons.length = 1) :
    (updateTick s (q ++ [.Click x y slot])).1.balls = s.balls + 1 ∧
    (receive_test_messages (updateTick s (q ++ [.Click x y slot])).1
        [.QueryComponents qslot]).2.countReplies =
      [(qslot, [("Ball", s.balls + 1), ("Button", 1)])] := by
  have happ := receive_append_state s q [TestMessage.Click x y slot]
  have hballs := receive_preserves_balls s q
  have hlen : (receive_test_messages s q).1.buttons.length = 1 := by
    rw [receive_preserves_button_count]; exact hb
  obtain ⟨b, hbtn⟩ := List.length_eq_one.mp hlen
  have hs1 : (receive_test_messages s (q ++ [TestMessage.Click x y slot])).1 =
      ⟨[⟨.Pressed, true⟩], s.balls⟩ := by
    rw [happ]
    show (applyTestMessage (receive_test_messages s q).1
        (TestMessage.Click x y slot)).1 = _
    simp [applyTestMessage, hbtn, hballs]
  have hN : (updateTick s (q ++ [TestMessage.Click x y slot])).1 =
      ⟨[⟨.Pressed, false⟩], s.balls + 1⟩ := by
    simp only [updateTick]
    rw [hs1]
    simp [handle_button_interaction]
  refine ⟨by rw [hN], ?_⟩
  rw [hN]
  simp [receive_test_messages, applyTestMessage, componentCountsMap,
        DrainOut.app, DrainOut.empty]

theorem drain_ending_in_click_spawns_one_ball_witness :
    (updateTick oneButton ([] ++ [.Click 400 300 0])).1.balls =
      oneButton.balls + 1 ∧
    (receive_test_messages (updateTick oneButton ([] ++ [.Click 400 300 0])).1
        [.QueryComponents 5]).2.countReplies =
      [(5, [("Ball", oneButton.balls + 1), ("Button", 1)])] := by
  have h := drain_ending_in_click_spawns_one_ball oneButton [] 400 300 0 5
      (by decide)
  exact ⟨h.1, h.2⟩

-- C6: timeout budgets and timeout messages on both transports.

/-- Claim C6: every request handler awaits its reply under a 2-second
budget for Hover/Click/QueryObjectCounts and a 5-second budget for
Screenshot, on both transports.  An arrival after the budget yields a
structured failure with a distinct timed-out message — different from
the closed-channel failure — not a protocol-level crash, and the socket
loop keeps processing the following frames of the connection.  Witness
of the distinct budgets: the same arrival time t ∈ (2,5] times out for
hover/click/query but is delivered for screenshot. -/
theorem request_timeout_budgets_and_messages (t u : Nat) (b : Bool)
    (name path : String) (counts : List (String × Nat)) (slot : Nat)
    (f1 : Option TestCommand) (o1 : Oracle)
    (rest : List (Option TestCommand × Oracle))
    (h2 : 2 < t) (ht5 : t ≤ 5) (h5 : 5 < u) :
    COMMAND_TIMEOUT_SECS = 2 ∧ SCREENSHOT_TIMEOUT_SECS = 5 ∧
    wait_for_response (.arrives t b) COMMAND_TIMEOUT_SECS name =
      ⟨false, name ++ ": 超时", none⟩ ∧
    wait_for_response .silent COMMAND_TIMEOUT_SECS name =
      ⟨false, name ++ ": 超时", none⟩ ∧
    (name ++ ": 超时") ≠ (name ++ ": 接收确认失败") ∧
    wait_for_bool_response (.arrives t b) SCREENSHOT_TIMEOUT_SECS = .ok b ∧
    wait_for_bool_response (.arrives u b) SCREENSHOT_TIMEOUT_SECS =
      .error "超时" ∧
    (handle_query_components ⟨true, .silent, .arrives t counts⟩ slot).2 =
      error_response "查询超时" ∧
    wait_bool (.arrives t b) COMMAND_TIMEOUT_SECS name =
      .error (name ++ ": 超时") ∧
    (MutationRoot.screenshot path ⟨true, .arrives t b, .silent⟩ slot).2 =
      .ok ⟨b, if b then "截图完成: " ++ path else "截图失败: " ++ path⟩ ∧
    (MutationRoot.screenshot path ⟨true, .arrives u b, .silent⟩ slot).2 =
      .error "截图超时" ∧
    (QueryRoot.component_counts ⟨true, .silent, .arrives t counts⟩ slot).2 =
      .error "查询超时" ∧
    handle_socket ((f1, o1) :: rest) =
      handle_socket_frame f1 o1 0 :: handle_socket rest := by
  have hnt2 : ¬ t ≤ 2 := by omega
  have hnu5 : ¬ u ≤ 5 := by omega
  refine ⟨rfl, rfl, ?_, ?_, ?_, ?_, ?_, ?_, ?_, ?_, ?_, ?_, rfl⟩
  · simp [wait_for_response, wait_for_bool_response, tokioTimeout,
          COMMAND_TIMEOUT_SECS, hnt2, error_response, String.append_assoc]
  · simp [wait_for_response, wait_for_bool_response, tokioTimeout,
          error_response, String.append_assoc]
  · exact append_ne_of_length_ne name _ _ (by decide)
  · simp [wait_for_bool_response, tokioTimeout, SCREENSHOT_TIMEOUT_SECS, ht5]
  · simp [wait_for_bool_response, tokioTimeout, SCREENSHOT_TIMEOUT_SECS, hnu5]
  · simp [handle_query_components, tokioTimeout, COMMAND_TIMEOUT_SECS, hnt2]
  · simp [wait_bool, tokioTimeout, COMMAND_TIMEOUT_SECS, hnt2]
  · simp [MutationRoot.screenshot, tokioTimeout, SCREENSHOT_TIMEOUT_SECS, ht5]
  · simp [MutationRoot.screenshot, tokioTimeout, SCREENSHOT_TIMEOUT_SECS, hnu5]
  · simp [QueryRoot.component_counts, tokioTimeout, COMMAND_TIMEOUT_SECS, hnt2]

theorem request_timeout_budgets_and_messages_witness :
    ((2 : Nat) < 3 ∧ (3 : Nat) ≤ 5 ∧ (5 : Nat) < 6) ∧
    wait_for_response (.arrives 3 true) COMMAND_TIMEOUT_SECS "悬停" =
      ⟨false, "悬停: 超时", none⟩ ∧
    wait_for_bool_response (.arrives 3 true) SCREENSHOT_TIMEOUT_SECS =
      .ok true := by
  have h := request_timeout_budgets_and_messages 3 6 true "悬停" "/tmp/s.png"
      [("Ball", 2)] 0 none oracle0 [] (by decide) (by decide) (by decide)
  exact ⟨⟨by decide, by decide, by decide⟩, h.2.2.1, h.2.2.2.2.2.1⟩

-- C9: component_counts shape and determinism.

theorem toI32_of_lt (n : Nat) (h : n < 2 ^ 31) : toI32 n = n := by
  unfold toI32
  have h0 : (0 : Int) ≤ (n : Int) := Int.natCast_nonneg n
  have hn : (n : Int) < 2 ^ 31 := by exact_mod_cast h
  have hlt32 : (n : Int) < 2 ^ 32 := by
    have : (2 : Int) ^ 31 < 2 ^ 32 := by norm_num
    omega
  rw [Int.emod_eq_of_lt h0 hlt32]
  rw [if_pos hn]

/-- Claim C9 counterexample: the GraphQL `component_counts` casts each
count with `as i32`; at a live count of 2^31 the returned count is
-2^31 < 0, refuting that every returned count is nonnegative. -/
theorem component_counts_i32_wraps :
    (QueryRoot.component_counts
        ⟨true, .silent, .arrives 0 [("Ball", 2 ^ 31), ("Button", 1)]⟩ 0).2 =
      .ok [⟨"Ball", -(2 ^ 31 : Int)⟩, ⟨"Button", 1⟩] ∧
    (-(2 ^ 31 : Int)) < 0 := by
  constructor
  · rfl
  · decide

/-- Claim C9 as amended: `component_counts` is a deterministic function
of the live counts — the map order the drain happens to deliver does not
matter, the result is sorted ascending by name, and repeated queries with
no intervening mutation (`QueryComponents` leaves the state untouched)
return identical results; every returned count is nonnegative provided
each live count is below 2^31 (the i32 range; above it the `as i32` cast
wraps, as the counterexample shows). -/
theorem component_counts_sorted_deterministic (b k slot : Nat)
    (s : DrainState) (hb : b < 2 ^ 31) (hk : k < 2 ^ 31) :
    (QueryRoot.component_counts
        ⟨true, .silent, .arrives 0 [("Ball", b), ("Button", k)]⟩ slot).2 =
      .ok [⟨"Ball", (b : Int)⟩, ⟨"Button", (k : Int)⟩] ∧
    (QueryRoot.component_counts
        ⟨true, .silent, .arrives 0 [("Button", k), ("Ball", b)]⟩ slot).2 =
      .ok [⟨"Ball", (b : Int)⟩, ⟨"Button", (k : Int)⟩] ∧
    ((0 : Int) ≤ (b : Int) ∧ (0 : Int) ≤ (k : Int)) ∧
    List.Pairwise (fun a c : ComponentCount => nameLe a c = true)
      [⟨"Ball", (b : Int)⟩, ⟨"Button", (k : Int)⟩] ∧
    (applyTestMessage s (.QueryComponents slot)).1 = s ∧
    (receive_test_messages s
        [.QueryComponents slot, .QueryComponents (slot + 1)]).2.countReplies =
      [(slot, componentCountsMap s), (slot + 1, componentCountsMap s)] := by
  have hle : charListLe "Ball".data "Button".data = true := by decide
  have hnle : charListLe "Button".data "Ball".data = false := by decide
  refine ⟨?_, ?_, ⟨Int.natCast_nonneg b, Int.natCast_nonneg k⟩, ?_, rfl, rfl⟩
  · simp [QueryRoot.component_counts, tokioTimeout, COMMAND_TIMEOUT_SECS,
        sortByName, insertByName, nameLe, hle, toI32_of_lt b hb,
        toI32_of_lt k hk]
  · simp [QueryRoot.component_counts, tokioTimeout, COMMAND_TIMEOUT_SECS,
        sortByName, insertByName, nameLe, hnle, toI32_of_lt b hb,
        toI32_of_lt k hk]
  · exact List.Pairwise.cons
      (by intro c hc; simp at hc; subst hc; exact hle)
      (List.pairwise_singleton _ _)

theorem component_counts_sorted_deterministic_witness :
    (QueryRoot.component_counts
        ⟨true, .silent, .arrives 0 [("Ball", 2), ("Button", 1)]⟩ 0).2 =
      .ok [⟨"Ball", (2 : Int)⟩, ⟨"Button", (1 : Int)⟩] ∧
    (QueryRoot.component_counts
        ⟨true, .silent, .arrives 0 [("Button", 1), ("Ball", 2)]⟩ 0).2 =
      .ok [⟨"Ball", (2 : Int)⟩, ⟨"Button", (1 : Int)⟩] := by
  have h := component_counts_sorted_deterministic 2 1 0 sampleState
      (by decide) (by decide)
  exact ⟨h.1, h.2.1⟩

-- C5: the screenshot waiter and its backoff schedule.

theorem incrementInterval_ge (c : Rat) (h : 50 ≤ c) :
    50 ≤ incrementInterval c := by
  unfold incrementInterval MAX_INTERVAL_MS MULTIPLIER
  split
  · norm_num
  · linarith

theorem jitteredInterval_lb (r c : Rat) (hr : 0 ≤ r) (hc : 0 ≤ c) :
    c / 2 ≤ jitteredInterval r c := by
  unfold jitteredInterval RANDOMIZATION_FACTOR
  nlinarith [mul_nonneg hr hc]

theorem jitteredInterval_ub (r c : Rat) (hr : r ≤ 1) (hc : 0 ≤ c) :
    jitteredInterval r c ≤ 3 / 2 * c := by
  unfold jitteredInterval RANDOMIZATION_FACTOR
  nlinarith [mul_le_of_le_one_left hc hr]

theorem incrementInterval_eq_min (c : Rat) :
    incrementInterval c = min (3 / 2 * c) 500 := by
  unfold incrementInterval MAX_INTERVAL_MS MULTIPLIER
  split
  · next h =>
      refine (min_eq_right ?_).symm
      norm_num at h
      linarith
  · next h =>
      rw [mul_comm]
      refine (min_eq_left ?_).symm
      norm_num at h
      linarith

theorem retryGo_ne_outOfFuel (r : Nat → Rat) (fileAt : Nat → Bool)
    (hr : ∀ n, 0 ≤ r n) :
    ∀ (fuel : Nat) (b : Backoff) (n : Nat), 50 ≤ b.currentInterval →
      MAX_ELAPSED_MS < b.elapsed + 25 * (fuel : Rat) →
      retryGo r fileAt (fuel + 1) b n ≠ .outOfFuel := by
  intro fuel
  induction fuel with
  | zero =>
      intro b n hc he
      simp only [Nat.cast_zero, mul_zero, add_zero] at he
      simp only [retryGo]
      split
      · simp
      · simp [nextBackoff, he]
  | succ k ih =>
      intro b n hc he
      simp only [retryGo]
      split
      · simp
      · by_cases hel : b.elapsed > MAX_ELAPSED_MS
        · simp [nextBackoff, hel]
        · push_neg at hel
          have hnb : nextBackoff (r n) b =
              some (jitteredInterval (r n) b.currentInterval,
                    incrementInterval b.currentInterval) := by
            simp [nextBackoff, not_lt.mpr hel]
          rw [hnb]
          have hc2 : 50 ≤ incrementInterval b.currentInterval :=
            incrementInterval_ge _ hc
          have hj : 25 ≤ jitteredInterval (r n) b.currentInterval := by
            have h1 := jitteredInterval_lb (r n) b.currentInterval (hr n)
                (by linarith)
            linarith
          have he2 : MAX_ELAPSED_MS <
              b.elapsed + jitteredInterval (r n) b.currentInterval +
                25 * (k : Rat) := by
            push_cast at he
            linarith
          exact ih ⟨incrementInterval b.currentInterval,
              b.elapsed + jitteredInterval (r n) b.currentInterval⟩
            (n + 1) hc2 he2

theorem retryGo_ok_file_found (r : Nat → Rat) (fileAt : Nat → Bool) :
    ∀ fuel (b : Backoff) (n m : Nat),
      retryGo r fileAt fuel b n = .ok m → ∃ j, fileAt j = true := by
  intro fuel
  induction fuel with
  | zero => intro b n m h; simp [retryGo] at h
  | succ k ih =>
      intro b n m h
      simp only [retryGo] at h
      by_cases hf : fileAt n
      · exact ⟨n, hf⟩
      · rw [if_neg (by simp [hf])] at h
        cases hnb : nextBackoff (r n) b with
        | none => rw [hnb] at h; simp at h
        | some pair =>
            rw [hnb] at h
            obtain ⟨i, c⟩ := pair
            exact ih _ _ _ h

theorem retryGo_found (r : Nat → Rat) (fileAt : Nat → Bool) (fuel : Nat)
    (b : Backoff) (n : Nat) (hf : fileAt n = true) :
    retryGo r fileAt (fuel + 1) b n = .ok (n + 1) := by
  simp only [retryGo, hf, if_true]

theorem retryGo_isOk_false_of_no_file (r : Nat → Rat) (fileAt : Nat → Bool)
    (hf : ∀ n, fileAt n = false) (fuel : Nat) (b : Backoff) (n : Nat) :
    (retryGo r fileAt fuel b n).isOk = false := by
  cases hres : retryGo r fileAt fuel b n with
  | ok m =>
      exact absurd (retryGo_ok_file_found r fileAt fuel b n m hres)
        (by simp [hf])
  | gaveUp m => rfl
  | outOfFuel => rfl

/-- Claim C5 counterexample: the configured backoff multiplies the
nominal interval by the crate-default 1.5 (with ±50% jitter), it does not
double it: after the first 50ms step the next nominal interval — and the
centered-jitter sleep drawn from it — is 75ms, not the 100ms that
doubling would give. -/
theorem backoff_second_interval_not_doubled :
    backoffCurrentSeq 1 = 75 ∧
    jitteredInterval (1 / 2) (backoffCurrentSeq 0) = 50 ∧
    jitteredInterval (1 / 2) (backoffCurrentSeq 1) = 75 ∧
    backoffCurrentSeq 1 ≠ 100 := by
  have h0 : backoffCurrentSeq 0 = 50 := rfl
  have h1 : backoffCurrentSeq 1 = incrementInterval 50 := rfl
  have hinc : incrementInterval 50 = 75 := by
    unfold incrementInterval MAX_INTERVAL_MS MULTIPLIER
    rw [if_neg (by norm_num)]
    norm_num
  refine ⟨?_, ?_, ?_, ?_⟩
  · rw [h1, hinc]
  · rw [h0]
    unfold jitteredInterval RANDOMIZATION_FACTOR
    norm_num
  · rw [h1, hinc]
    unfold jitteredInterval RANDOMIZATION_FACTOR
    norm_num
  · rw [h1, hinc]
    norm_num

/-- Claim C5 as amended: the drain applies a Screenshot command by
issuing one capture targeted at the path and detaching one background
waiter, fulfilling nothing synchronously; the waiter polls for the file
with exponential backoff — initial nominal interval 50ms, multiplied by
1.5 per step (crate default; not doubled) and capped at 500ms, each sleep
jittered within ±50% of the nominal interval, budget 5 seconds checked
before each sleep — terminates after a bounded number of polls (203
suffice for every jitter sequence), and performs exactly one fulfilment
on the reply slot: false when the budget is exhausted without the file
appearing, true only when a poll actually saw the file (in particular
true immediately when the file is present at the first poll). -/
theorem screenshot_waiter_contract (r : Nat → Rat) (fileAt : Nat → Bool)
    (slot m : Nat) (s : DrainState) (path : String)
    (hr : ∀ n, 0 ≤ r n ∧ r n ≤ 1) :
    (applyTestMessage s (.Screenshot path slot)).2 =
      ⟨[], [], [path], [(path, slot)]⟩ ∧
    (applyTestMessage s (.Screenshot path slot)).1 = s ∧
    (screenshotWaiterSends r fileAt slot).length = 1 ∧
    retryGo r fileAt 203 backoffInit 0 ≠ .outOfFuel ∧
    ((∀ n, fileAt n = false) →
      screenshotWaiterSends r fileAt slot = [(slot, false)]) ∧
    (fileAt 0 = true → screenshotWaiterSends r fileAt slot = [(slot, true)]) ∧
    (retryGo r fileAt 203 backoffInit 0 = .ok m → ∃ j, fileAt j = true) ∧
    backoffCurrentSeq 0 = 50 ∧
    (∀ kk, backoffCurrentSeq (kk + 1) =
      min (3 / 2 * backoffCurrentSeq kk) 500) ∧
    (∀ kk c, 0 ≤ c →
      c / 2 ≤ jitteredInterval (r kk) c ∧
      jitteredInterval (r kk) c ≤ 3 / 2 * c) := by
  refine ⟨rfl, rfl, rfl, ?_, ?_, ?_, ?_, rfl, ?_, ?_⟩
  · exact retryGo_ne_outOfFuel r fileAt (fun n => (hr n).1) 202
      backoffInit 0 (by norm_num [backoffInit, INITIAL_INTERVAL_MS])
      (by norm_num [backoffInit, MAX_ELAPSED_MS])
  · intro hf
    have hfalse := retryGo_isOk_false_of_no_file r fileAt hf 203 backoffInit 0
    unfold screenshotWaiterSends
    rw [hfalse]
  · intro h0
    have hok : retryGo r fileAt 203 backoffInit 0 = .ok 1 :=
      retryGo_found r fileAt 202 backoffInit 0 h0
    unfold screenshotWaiterSends
    rw [hok]
    rfl
  · exact retryGo_ok_file_found r fileAt 203 backoffInit 0 m
  · intro kk
    show incrementInterval (backoffCurrentSeq kk) = _
    exact incrementInterval_eq_min _
  · intro kk c hc
    exact ⟨jitteredInterval_lb (r kk) c (hr kk).1 hc,
           jitteredInterval_ub (r kk) c (hr kk).2 hc⟩

theorem screenshot_waiter_contract_witness :
    screenshotWaiterSends (fun _ => (1 : Rat)) (fun _ => false) 9 =
      [(9, false)] ∧
    retryGo (fun _ => (1 : Rat)) (fun _ => false) 203 backoffInit 0 ≠
      .outOfFuel := by
  have h := screenshot_waiter_contract (fun _ => (1 : Rat)) (fun _ => false)
      9 0 sampleState "/tmp/s.png" (fun n => ⟨by norm_num, le_refl 1⟩)
  exact ⟨h.2.2.2.2.1 (fun n => rfl), h.2.2.2.1⟩
